import Mathlib

/-!
Verification of the CalendarAgent availability engine and booking
orchestrator (src/agents.py), shallowly embedded in Lean 4.

Modelling conventions:

* Instants are minutes since the Unix epoch (`Int`); dates are whole days
  since the epoch (`Int`).  `1970-01-01` was a Thursday, and Python's
  `date.weekday()` numbers Monday as 0, so the weekday of day `d` is
  `(d + 3) % 7`.
* The current UTC time `datetime.utcnow()` is an explicit parameter
  `now : Int` (minutes).  `datetime.utcnow().date()` is `now.fdiv 1440`.
* Busy intervals (already parsed from ISO strings) are pairs
  `(start, end) : Int × Int` of minutes.
* The Google free/busy query is a parameter of type
  `Except String (List (Int × Int))`: `.error e` models the query (or any
  step before slot generation) raising an exception with message `e`.
* The `while` loop over cursor positions is embedded with structural fuel;
  the fuel supplied by the caller strictly exceeds the number of
  iterations, so the base case is never reached.
* Python's `2 ** retry_count` sleeps are recorded in a list (in order) and
  the number of `events().insert` invocations is counted, so that the
  retry policy is observable in the model.
* The slot scan is embedded twice.  `find_available_slots` runs the scan
  as the source intends it, with the half-open overlap check total — an
  over-approximation of the program.  `find_available_slots_run` is the
  faithful embedding: the source builds naive slot datetimes but aware
  busy datetimes, so the overlap comparison raises `TypeError` whenever
  it is evaluated and the `except` branch returns the error dict.  The
  two agree exactly when the busy list is empty
  (`find_available_slots_run_empty_busy`), and the faithful candidate
  list is always a sublist of the idealized one (it is empty or equal),
  so universally quantified statements about the idealized candidates
  also hold of the program's.
-/

/-- Python `date.weekday()` of the day `d` days after 1970-01-01
(Monday = 0, ..., Sunday = 6). -/
def weekday (d : Int) : Int := (d + 3) % 7

/-- `TimeSlot` model (src/agents.py:47): a candidate slot, minutes since
epoch.  The Python field `end` is a Lean keyword, hence the guillemets. -/
structure TimeSlot where
  start : Int
  «end» : Int
deriving DecidableEq, Repr

/-- The free-check of the cursor loop (src/agents.py:148-155) as the
source intends it: the slot `[s, e)` is free iff for every busy interval
`(c, d)` we have `e ≤ c ∨ s ≥ d` (the half-open overlap rule, negated).
This is an idealization: in the program the slot bounds are naive
datetimes (src/agents.py:139) while the busy bounds are timezone-aware
(src/agents.py:150-151), so the comparison at line 153 actually raises
`TypeError` whenever it is evaluated; `generate_slots_naive_aware` below
models that faithfully. -/
def slot_is_free (s e : Int) (busy : List (Int × Int)) : Bool :=
  busy.all fun b => decide (e ≤ b.1) || decide (s ≥ b.2)

/-- The cursor `while` loop (src/agents.py:143-163): starting at
`slot_start`, while `slot_start + duration ≤ end_time`, append the slot
`[slot_start, slot_start + duration)` when it is free and advance the
cursor by 15 minutes.  `fuel` bounds the number of iterations; callers
supply enough fuel that the `0` case is unreachable. -/
def generate_slots : Nat → Int → Int → Int → List (Int × Int) → List TimeSlot
  | 0, _, _, _, _ => []
  | fuel + 1, slot_start, end_time, duration, busy =>
    if slot_start + duration ≤ end_time then
      (if slot_is_free slot_start (slot_start + duration) busy then
        [⟨slot_start, slot_start + duration⟩]
      else []) ++
      generate_slots fuel (slot_start + 15) end_time duration busy
    else []

/-- One iteration of the day loop (src/agents.py:131-163): skip weekends
(`weekday ≥ 5`), otherwise run the cursor loop over the fixed
10:00-17:00 window of day `day_date`. -/
def day_slots (day_date duration : Int) (busy : List (Int × Int)) :
    List TimeSlot :=
  if weekday day_date ≥ 5 then []
  else
    generate_slots ((420 - duration).toNat + 1)
      (day_date * 1440 + 600) (day_date * 1440 + 1020) duration busy

/-- The full candidate list accumulated by `find_available_slots`
(src/agents.py:128-163): days `0, ..., days_ahead - 1` offset from the
current UTC date, in order. -/
def available_slots_list (now duration days_ahead : Int)
    (busy : List (Int × Int)) : List TimeSlot :=
  (List.range days_ahead.toNat).flatMap fun day =>
    day_slots (now.fdiv 1440 + day) duration busy

/-- `AvailableSlotsResponse` model (src/agents.py:51). -/
structure AvailableSlotsResponse where
  available_slots : List TimeSlot
  selected_slot : Option TimeSlot
  notes : String
deriving DecidableEq, Repr

/-- The caller-facing return shape of `find_available_slots`: the success
branch returns the pydantic model object itself, while the
zero-candidate and exception branches return `model_dump()` dicts. -/
inductive SlotsReturn where
  | model (r : AvailableSlotsResponse)
  | dict (r : AvailableSlotsResponse)
deriving DecidableEq, Repr

/-- The response data carried by either return shape. -/
def SlotsReturn.payload : SlotsReturn → AvailableSlotsResponse
  | .model r => r
  | .dict r => r

/-- `true` iff the returned value is a plain dict (`model_dump()`), not
the model object. -/
def SlotsReturn.isDict : SlotsReturn → Bool
  | .model _ => false
  | .dict _ => true

/-- The body of `find_available_slots` after a successful free/busy query
(src/agents.py:128-179): build the candidate list; when empty, return the
"no slots" dict, otherwise select the first candidate and return the
model object. -/
def find_available_slots_ok (now duration days_ahead : Int)
    (busy : List (Int × Int)) : SlotsReturn :=
  match available_slots_list now duration days_ahead busy with
  | [] =>
    .dict ⟨[], none,
      "No available slots found between 10 AM and 5 PM in the next " ++
        toString days_ahead ++ " days"⟩
  | s :: rest =>
    .model ⟨s :: rest, some s,
      "Found " ++ toString (s :: rest).length ++
        " available slots between 10 AM and 5 PM"⟩

/-- `find_available_slots` (src/agents.py:107-187) with the free/busy
query result as an explicit parameter: a query exception lands in the
`except` branch, which returns an error dict.  On `Except.ok busy` this
runs the idealized scan with the total overlap check, so it
over-approximates the program: its candidate list equals the program's
when `busy` is empty (`find_available_slots_run_empty_busy` below) and
is a superset otherwise, because the real scan raises `TypeError` at the
first naive-vs-aware comparison; `find_available_slots_run` below is the
faithful embedding of that behaviour. -/
def find_available_slots (now duration days_ahead : Int)
    (freebusy : Except String (List (Int × Int))) : SlotsReturn :=
  match freebusy with
  | .error e => .dict ⟨[], none, "Error finding slots: " ++ e⟩
  | .ok busy => find_available_slots_ok now duration days_ahead busy

/-- `timeMin` of the free/busy query (src/agents.py:112): the current
time. -/
def freebusy_timeMin (now : Int) : Int := now

/-- `timeMax` of the free/busy query (src/agents.py:115):
`now + days_ahead` days. -/
def freebusy_timeMax (now days_ahead : Int) : Int := now + days_ahead * 1440

/-- The cursor `while` loop as the program actually executes it: the
slot bounds built at src/agents.py:139-145 are naive datetimes while the
busy bounds parsed at src/agents.py:150-151 are timezone-aware, so the
first evaluation of `slot_end <= busy_start` (src/agents.py:153) raises
`TypeError("can't compare offset-naive and offset-aware datetimes")`
whenever `busy` is nonempty; with `busy` empty the inner `for` never
runs, `slot_is_free` stays `True` and every slot is appended. -/
def generate_slots_naive_aware :
    Nat → Int → Int → Int → List (Int × Int) → Except String (List TimeSlot)
  | 0, _, _, _, _ => Except.ok []
  | fuel + 1, slot_start, end_time, duration, busy =>
    if slot_start + duration ≤ end_time then
      match busy with
      | [] =>
        (generate_slots_naive_aware fuel (slot_start + 15) end_time
            duration []).map
          fun rest => ⟨slot_start, slot_start + duration⟩ :: rest
      | _ :: _ =>
        Except.error "can't compare offset-naive and offset-aware datetimes"
    else Except.ok []

/-- One day-loop iteration of the faithful scan: weekends are skipped
before any comparison happens. -/
def day_slots_naive_aware (day_date duration : Int)
    (busy : List (Int × Int)) : Except String (List TimeSlot) :=
  if weekday day_date ≥ 5 then Except.ok []
  else
    generate_slots_naive_aware ((420 - duration).toNat + 1)
      (day_date * 1440 + 600) (day_date * 1440 + 1020) duration busy

/-- The faithful day loop: the first `TypeError` aborts the whole `try`
block (src/agents.py:131-163), discarding slots accumulated so far. -/
def available_slots_list_naive_aware (now duration days_ahead : Int)
    (busy : List (Int × Int)) : Except String (List TimeSlot) :=
  (List.range days_ahead.toNat).foldl
    (fun acc (day : Nat) =>
      acc.bind fun slots =>
        (day_slots_naive_aware (now.fdiv 1440 + day) duration busy).map
          fun ds => slots ++ ds)
    (Except.ok [])

/-- The faithful `find_available_slots` (src/agents.py:107-187) after a
successful free/busy query returning `busy`: a raised `TypeError` is
caught by the `except Exception` branch (src/agents.py:181-187), which
returns the error dict with no candidates; otherwise the usual
zero-candidate / success branching applies. -/
def find_available_slots_run (now duration days_ahead : Int)
    (busy : List (Int × Int)) : SlotsReturn :=
  match available_slots_list_naive_aware now duration days_ahead busy with
  | Except.error e => .dict ⟨[], none, "Error finding slots: " ++ e⟩
  | Except.ok [] =>
    .dict ⟨[], none,
      "No available slots found between 10 AM and 5 PM in the next " ++
        toString days_ahead ++ " days"⟩
  | Except.ok (s :: rest) =>
    .model ⟨s :: rest, some s,
      "Found " ++ toString (s :: rest).length ++
        " available slots between 10 AM and 5 PM"⟩

/-- `CalendarEventDetails` model (src/agents.py:30): pydantic validates
field shapes only; no relation between `start_time` and `end_time` is
checked. -/
structure CalendarEventDetails where
  summary : String
  description : Option String
  start_time : String
  end_time : String
  attendees : List String
  timezone : String
deriving DecidableEq, Repr

/-- The fields of the Google event resource that `create_event` reads
from a successful `events().insert` response. -/
structure EventResource where
  htmlLink : Option String
  hangoutLink : Option String
  id : Option String
deriving DecidableEq, Repr

/-- `CalendarEventResponse` model (src/agents.py:39). -/
structure CalendarEventResponse where
  status : String
  event_link : Option String
  meet_link : Option String
  event_id : Option String
  error_message : Option String
deriving DecidableEq, Repr

/-- The retry `while` loop of `create_event` (src/agents.py:219-242).
`backend k` is the outcome of the `k`-th (0-based) `events().insert`
call; `call_idx` is the current value of `retry_count`, `remaining` is
`max_retries - retry_count`.  Returns the final outcome, the number of
insert calls performed, and the list of `time.sleep(2 ** retry_count)`
durations in order.  The `remaining = 0` base case corresponds to the
loop exiting with `created_event = None`, unreachable from the actual
entry point (`retry_count = 0`, `max_retries = 3`). -/
def create_event_attempts (backend : Nat → Except String EventResource) :
    Nat → Nat → Except String EventResource × Nat × List Nat
  | call_idx, 0 => (Except.error "loop not entered", call_idx, [])
  | call_idx, remaining + 1 =>
    match backend call_idx with
    | Except.ok ev => (Except.ok ev, call_idx + 1, [])
    | Except.error e =>
      if remaining = 0 then (Except.error e, call_idx + 1, [])
      else
        let rest := create_event_attempts backend (call_idx + 1) remaining
        (rest.1, rest.2.1, 2 ^ (call_idx + 1) :: rest.2.2)

/-- The result of a `create_event` run: the returned response, the number
of `events().insert` invocations, and the backoff sleeps performed. -/
structure CreateEventResult where
  response : CalendarEventResponse
  insert_calls : Nat
  sleeps : List Nat
deriving DecidableEq, Repr

/-- `create_event` (src/agents.py:189-268): run the retry loop with
`retry_count = 0`, `max_retries = 3`; on success build the success
response from the event resource, on the final failure the re-raised
exception is caught and returned as an error response.  `details` is the
already-validated `CalendarEventDetails`; pydantic imposes no constraint
relating `start_time` and `end_time`, so the loop runs for every
`details`. -/
def create_event (details : CalendarEventDetails)
    (backend : Nat → Except String EventResource) : CreateEventResult :=
  match create_event_attempts backend 0 3 with
  | (Except.ok ev, calls, sleeps) =>
    ⟨⟨"success", ev.htmlLink, ev.hangoutLink, ev.id, none⟩, calls, sleeps⟩
  | (Except.error e, calls, sleeps) =>
    ⟨⟨"error", none, none, none, some e⟩, calls, sleeps⟩

theorem mem_generate_slots {fuel : Nat} {t end_time duration : Int}
    {busy : List (Int × Int)} {s : TimeSlot}
    (h : s ∈ generate_slots fuel t end_time duration busy) :
    t ≤ s.start ∧ s.«end» = s.start + duration ∧
      s.start + duration ≤ end_time ∧
      ∀ b ∈ busy, s.«end» ≤ b.1 ∨ b.2 ≤ s.start := by
  induction fuel generalizing t with
  | zero => simp [generate_slots] at h
  | succ fuel ih =>
    rw [generate_slots] at h
    split at h
    · rename_i hle
      rcases List.mem_append.mp h with h1 | h2
      · split at h1
        · rename_i hfree
          rcases List.mem_singleton.mp h1 with rfl
          refine ⟨le_refl _, rfl, hle, ?_⟩
          intro b hb
          have hball := List.all_eq_true.mp hfree b hb
          rcases Bool.or_eq_true_iff.mp hball with hc | hc
          · exact Or.inl (of_decide_eq_true hc)
          · exact Or.inr (of_decide_eq_true hc)
        · simp at h1
      · obtain ⟨ht, he, hb, hfree⟩ := ih h2
        exact ⟨by omega, he, hb, hfree⟩
    · simp at h

theorem generate_slots_pairwise {fuel : Nat} {t end_time duration : Int}
    {busy : List (Int × Int)} :
    (generate_slots fuel t end_time duration busy).Pairwise
      (fun a b => a.start < b.start) := by
  induction fuel generalizing t with
  | zero => simp [generate_slots]
  | succ fuel ih =>
    rw [generate_slots]
    split
    · refine List.pairwise_append.mpr ⟨?_, ih, ?_⟩
      · split <;> simp
      · intro a ha b hb
        have hb' := (mem_generate_slots hb).1
        split at ha
        · rcases List.mem_singleton.mp ha with rfl
          simp only
          omega
        · simp at ha
    · simp

theorem mem_day_slots {day_date duration : Int} {busy : List (Int × Int)}
    {s : TimeSlot} (h : s ∈ day_slots day_date duration busy) :
    weekday day_date < 5 ∧ day_date * 1440 + 600 ≤ s.start ∧
      s.«end» = s.start + duration ∧ s.«end» ≤ day_date * 1440 + 1020 ∧
      ∀ b ∈ busy, s.«end» ≤ b.1 ∨ b.2 ≤ s.start := by
  rw [day_slots] at h
  split at h
  · simp at h
  · rename_i hwd
    obtain ⟨ht, he, hb, hfree⟩ := mem_generate_slots h
    exact ⟨by omega, ht, he, by omega, hfree⟩

theorem day_slots_pairwise {day_date duration : Int}
    {busy : List (Int × Int)} :
    (day_slots day_date duration busy).Pairwise
      (fun a b => a.start < b.start) := by
  rw [day_slots]
  split
  · simp
  · exact generate_slots_pairwise

theorem mem_available_slots_list {now duration days_ahead : Int}
    {busy : List (Int × Int)} {s : TimeSlot}
    (h : s ∈ available_slots_list now duration days_ahead busy) :
    ∃ k : Nat, k < days_ahead.toNat ∧
      s ∈ day_slots (now.fdiv 1440 + k) duration busy := by
  rw [available_slots_list] at h
  obtain ⟨k, hk, hs⟩ := List.mem_flatMap.mp h
  exact ⟨k, List.mem_range.mp hk, hs⟩

theorem payload_available_slots_ok (now duration days_ahead : Int)
    (busy : List (Int × Int)) :
    ((find_available_slots now duration days_ahead
        (Except.ok busy)).payload).available_slots =
      available_slots_list now duration days_ahead busy := by
  rw [find_available_slots, find_available_slots_ok]
  split <;> rename_i heq <;> simp [SlotsReturn.payload, heq]

/-- C5: in every response returned by `find_available_slots`,
`selected_slot` is the head of `available_slots`; in particular it is
`none` iff `available_slots` is empty, and otherwise the first
(chronologically earliest) candidate. -/
theorem c5_selected_is_head_of_candidates (now duration days_ahead : Int)
    (freebusy : Except String (List (Int × Int))) :
    ((find_available_slots now duration days_ahead
        freebusy).payload).selected_slot =
      ((find_available_slots now duration days_ahead
        freebusy).payload).available_slots.head? ∧
    (((find_available_slots now duration days_ahead
        freebusy).payload).selected_slot = none ↔
      ((find_available_slots now duration days_ahead
        freebusy).payload).available_slots = []) := by
  cases freebusy with
  | error e => simp [find_available_slots, SlotsReturn.payload]
  | ok busy =>
    rw [find_available_slots, find_available_slots_ok]
    split <;> simp [SlotsReturn.payload]

/-- C6: for every busy set and every well-formed request (positive
duration, per the `AvailabilityRequest` invariant), each candidate
returned by `find_available_slots` lies on a searched, non-excluded day
(weekday < 5, i.e. not Saturday or Sunday) and inside that day's window
`[10:00, 17:00)`. -/
theorem c6_candidates_inside_window_weekdays (now duration days_ahead : Int)
    (busy : List (Int × Int)) (s : TimeSlot) (hdur : 0 < duration)
    (hs : s ∈ ((find_available_slots now duration days_ahead
        (Except.ok busy)).payload).available_slots) :
    ∃ k : Nat, k < days_ahead.toNat ∧
      weekday (now.fdiv 1440 + k) < 5 ∧
      (now.fdiv 1440 + k) * 1440 + 600 ≤ s.start ∧
      s.start < s.«end» ∧
      s.«end» ≤ (now.fdiv 1440 + k) * 1440 + 1020 := by
  rw [payload_available_slots_ok] at hs
  obtain ⟨k, hk, hday⟩ := mem_available_slots_list hs
  obtain ⟨hw, h1, he, h2, _⟩ := mem_day_slots hday
  exact ⟨k, hk, hw, h1, by omega, h2⟩

/-- Witness for C6: the candidate `[10:00, 11:00)` of day 0 (a Thursday)
lies inside the window of a searched weekday. -/
theorem c6_candidates_inside_window_weekdays_witness :
    (0 : Int) < 60 ∧
    (⟨600, 660⟩ : TimeSlot) ∈ ((find_available_slots 0 60 1
        (Except.ok [])).payload).available_slots ∧
    (∃ k : Nat, k < (1 : Int).toNat ∧
      weekday ((0 : Int).fdiv 1440 + k) < 5 ∧
      ((0 : Int).fdiv 1440 + k) * 1440 + 600 ≤ (⟨600, 660⟩ : TimeSlot).start ∧
      (⟨600, 660⟩ : TimeSlot).start < (⟨600, 660⟩ : TimeSlot).«end» ∧
      (⟨600, 660⟩ : TimeSlot).«end» ≤ ((0 : Int).fdiv 1440 + k) * 1440 + 1020) :=
  ⟨by decide, by decide,
    c6_candidates_inside_window_weekdays 0 60 1 [] ⟨600, 660⟩ (by decide)
      (by decide)⟩

/-- C7: for every busy set and every well-formed request (positive
duration), the candidate list returned by `find_available_slots` is
strictly chronologically ordered (each candidate starts strictly after
the previous one) and therefore contains no duplicates. -/
theorem c7_candidates_strictly_ordered_nodup (now duration days_ahead : Int)
    (busy : List (Int × Int)) (hdur : 0 < duration) :
    ((find_available_slots now duration days_ahead
        (Except.ok busy)).payload).available_slots.Pairwise
      (fun a b => a.start < b.start) ∧
    ((find_available_slots now duration days_ahead
        (Except.ok busy)).payload).available_slots.Nodup := by
  rw [payload_available_slots_ok]
  have hp : (available_slots_list now duration days_ahead busy).Pairwise
      (fun a b => a.start < b.start) := by
    rw [available_slots_list]
    refine List.pairwise_flatMap.mpr
      ⟨fun a _ => day_slots_pairwise, ?_⟩
    refine (List.pairwise_lt_range days_ahead.toNat).imp ?_
    intro k j hkj x hx y hy
    obtain ⟨_, hx1, hxe, hx2, _⟩ := mem_day_slots hx
    obtain ⟨_, hy1, hye, hy2, _⟩ := mem_day_slots hy
    have hkj' : (k : Int) + 1 ≤ (j : Int) := by exact_mod_cast hkj
    omega
  exact ⟨hp, hp.imp fun hlt heq => by subst heq; exact lt_irrefl _ hlt⟩

/-- Witness for C7: a concrete well-formed request. -/
theorem c7_candidates_strictly_ordered_nodup_witness :
    (0 : Int) < 60 ∧
    (((find_available_slots 0 60 1
        (Except.ok [])).payload).available_slots.Pairwise
      (fun a b => a.start < b.start) ∧
    ((find_available_slots 0 60 1
        (Except.ok [])).payload).available_slots.Nodup) :=
  ⟨by decide, c7_candidates_strictly_ordered_nodup 0 60 1 [] (by decide)⟩

/-- C8: `find_available_slots` is pure and deterministic in its
arguments: two calls with identical current time, duration, day range and
free/busy result return identical values (in particular identical
candidate lists).  In the embedding the ambient input
`datetime.utcnow()` is the explicit argument `now`, so purity is
definitional: the result is a function of the arguments alone. -/
theorem c8_find_slots_deterministic (now now' duration duration'
    days_ahead days_ahead' : Int)
    (freebusy freebusy' : Except String (List (Int × Int)))
    (h1 : now = now') (h2 : duration = duration')
    (h3 : days_ahead = days_ahead') (h4 : freebusy = freebusy') :
    find_available_slots now duration days_ahead freebusy =
      find_available_slots now' duration' days_ahead' freebusy' := by
  subst h1; subst h2; subst h3; subst h4; rfl

/-- Witness for C8: two identical concrete calls coincide. -/
theorem c8_find_slots_deterministic_witness :
    find_available_slots 0 60 7 (Except.ok [(660, 720)]) =
      find_available_slots 0 60 7 (Except.ok [(660, 720)]) :=
  c8_find_slots_deterministic 0 0 60 60 7 7 (Except.ok [(660, 720)])
    (Except.ok [(660, 720)]) rfl rfl rfl rfl

/-- Counterexample to C2: the code performs no request validation.  For
the malformed request `duration_minutes = 0` (violating the positive
duration invariant) and an empty busy set, `find_available_slots` does
not signal any error: it returns the ordinary success-branch model object
with 29 degenerate candidates, the first being `[10:00, 10:00)`, every
one of which violates the `start < end` slot invariant — a silently
wrong result. -/
theorem c2_counterexample_zero_duration_not_rejected :
    (find_available_slots 0 0 1 (Except.ok [])).isDict = false ∧
    ((find_available_slots 0 0 1
        (Except.ok [])).payload).available_slots.length = 29 ∧
    ((find_available_slots 0 0 1
        (Except.ok [])).payload).available_slots.head? = some ⟨600, 600⟩ ∧
    (((find_available_slots 0 0 1
        (Except.ok [])).payload).available_slots.all
      fun s => decide (s.«end» ≤ s.start)) = true := by decide

/-- C2 amended: `find_available_slots` performs no validation of the
request.  A non-positive duration is not rejected and no `InvalidRequest`
condition is signaled; the scan runs normally and every candidate it
returns violates the `start < end` slot invariant (`end ≤ start`),
i.e. malformed input silently produces wrong results. -/
theorem c2_amended_no_validation_degenerate_slots
    (now duration days_ahead : Int) (busy : List (Int × Int))
    (s : TimeSlot) (hdur : duration ≤ 0)
    (hs : s ∈ ((find_available_slots now duration days_ahead
        (Except.ok busy)).payload).available_slots) :
    s.«end» ≤ s.start := by
  rw [payload_available_slots_ok] at hs
  obtain ⟨k, _, hday⟩ := mem_available_slots_list hs
  have he := (mem_day_slots hday).2.2.1
  omega

/-- Witness for the amended C2: the degenerate candidate
`[10:00, 10:00)` produced for duration 0. -/
theorem c2_amended_no_validation_degenerate_slots_witness :
    (0 : Int) ≤ 0 ∧
    (⟨600, 600⟩ : TimeSlot) ∈ ((find_available_slots 0 0 1
        (Except.ok [])).payload).available_slots ∧
    (⟨600, 600⟩ : TimeSlot).«end» ≤ (⟨600, 600⟩ : TimeSlot).start :=
  ⟨by decide, by decide,
    c2_amended_no_validation_degenerate_slots 0 0 1 [] ⟨600, 600⟩
      (by decide) (by decide)⟩

/-- C9: the caller-facing return shape of `find_available_slots` differs
by branch: the zero-candidate branch and the exception branch return a
plain dict (`model_dump()`), while the success branch returns the
`AvailableSlotsResponse` model object itself, so the return shape is not
uniform across inputs. -/
theorem c9_return_shape_not_uniform :
    (∀ (now duration days_ahead : Int) (busy : List (Int × Int)),
      available_slots_list now duration days_ahead busy = [] →
      (find_available_slots now duration days_ahead
        (Except.ok busy)).isDict = true) ∧
    (∀ (now duration days_ahead : Int) (busy : List (Int × Int)),
      available_slots_list now duration days_ahead busy ≠ [] →
      (find_available_slots now duration days_ahead
        (Except.ok busy)).isDict = false) ∧
    (∀ (now duration days_ahead : Int) (e : String),
      (find_available_slots now duration days_ahead
        (Except.error e)).isDict = true) := by
  refine ⟨?_, ?_, ?_⟩
  · intro now duration days_ahead busy h
    rw [find_available_slots, find_available_slots_ok]
    split <;> rename_i heq
    · rfl
    · simp [h] at heq
  · intro now duration days_ahead busy h
    rw [find_available_slots, find_available_slots_ok]
    split <;> rename_i heq
    · exact absurd heq h
    · rfl
  · intro now duration days_ahead e
    rfl

/-- Witness for C9: both return shapes occur — a dict for zero days
searched and for a raised exception, the model object for a non-empty
scan. -/
theorem c9_return_shape_not_uniform_witness :
    available_slots_list 0 60 0 [] = [] ∧
    (find_available_slots 0 60 0 (Except.ok [])).isDict = true ∧
    available_slots_list 0 60 1 [] ≠ [] ∧
    (find_available_slots 0 60 1 (Except.ok [])).isDict = false ∧
    (find_available_slots 0 60 1 (Except.error "boom")).isDict = true :=
  ⟨by decide, c9_return_shape_not_uniform.1 0 60 0 [] (by decide),
    by decide, c9_return_shape_not_uniform.2.1 0 60 1 [] (by decide),
    c9_return_shape_not_uniform.2.2 0 60 1 "boom"⟩

/-- C10: on the first searched day `find_available_slots` can return and
select a slot whose start precedes the time of the call: at 15:00 UTC on
a Thursday (now = 900 minutes of day 0) it selects `[10:00, 11:00)` of
the same day, which starts before `now` and before `timeMin` of the
free/busy query, so it was never checked against past busy intervals. -/
theorem c10_selected_slot_can_precede_now :
    ((find_available_slots 900 60 1
        (Except.ok [])).payload).selected_slot = some ⟨600, 660⟩ ∧
    (600 : Int) < 900 ∧
    (600 : Int) < freebusy_timeMin 900 ∧
    (find_available_slots 900 60 1 (Except.ok [])).isDict = false := by
  decide

theorem create_event_attempts_succ
    (backend : Nat → Except String EventResource) (call_idx remaining : Nat) :
    create_event_attempts backend call_idx (remaining + 1) =
      match backend call_idx with
      | Except.ok ev => (Except.ok ev, call_idx + 1, [])
      | Except.error e =>
        if remaining = 0 then (Except.error e, call_idx + 1, [])
        else
          ((create_event_attempts backend (call_idx + 1) remaining).1,
            (create_event_attempts backend (call_idx + 1) remaining).2.1,
            2 ^ (call_idx + 1) ::
              (create_event_attempts backend (call_idx + 1) remaining).2.2) :=
  rfl

theorem create_event_attempts_calls_le
    (backend : Nat → Except String EventResource) (r : Nat) :
    ∀ i : Nat, (create_event_attempts backend i r).2.1 ≤ i + r := by
  induction r with
  | zero => intro i; simp [create_event_attempts]
  | succ r ih =>
    intro i
    rw [create_event_attempts_succ]
    cases hb : backend i with
    | ok ev => simp
    | error e =>
      by_cases hr : r = 0
      · subst hr; simp
      · simp only [hr, if_false]
        have := ih (i + 1)
        omega

theorem create_event_attempts_calls_pos
    (backend : Nat → Except String EventResource) (r : Nat) :
    ∀ i : Nat, i < (create_event_attempts backend i (r + 1)).2.1 := by
  induction r with
  | zero =>
    intro i
    rw [create_event_attempts_succ]
    cases hb : backend i <;> simp
  | succ r ih =>
    intro i
    rw [create_event_attempts_succ]
    cases hb : backend i with
    | ok ev => simp
    | error e =>
      simp only [Nat.succ_ne_zero, if_false]
      have := ih (i + 1)
      omega

/-- C4: the retry policy of `create_event`.  (a) For a permanently
failing backend, the `events().insert` call is made exactly 3 times, the
waits between consecutive attempts are `2^1` and `2^2` time units
(attempt counted from 1, no wait after the final failure), and the
result is the error response carrying the last error message.  (b) On
first-attempt success the call is made exactly once with no waits.
(c) For any backend at most 3 calls are made. -/
theorem c4_retry_policy_bounded_backoff :
    (∀ (details : CalendarEventDetails)
        (backend : Nat → Except String EventResource) (msgs : Nat → String),
      (∀ k, backend k = Except.error (msgs k)) →
      create_event details backend =
        ⟨⟨"error", none, none, none, some (msgs 2)⟩, 3, [2, 4]⟩) ∧
    (∀ (details : CalendarEventDetails)
        (backend : Nat → Except String EventResource) (ev : EventResource),
      backend 0 = Except.ok ev →
      create_event details backend =
        ⟨⟨"success", ev.htmlLink, ev.hangoutLink, ev.id, none⟩, 1, []⟩) ∧
    (∀ (details : CalendarEventDetails)
        (backend : Nat → Except String EventResource),
      (create_event details backend).insert_calls ≤ 3) := by
  refine ⟨?_, ?_, ?_⟩
  · intro details backend msgs hf
    have hA : create_event_attempts backend 2 1 =
        (Except.error (msgs 2), 3, []) := by
      have h := create_event_attempts_succ backend 2 0
      rw [hf 2] at h
      simpa using h
    have hB : create_event_attempts backend 1 2 =
        (Except.error (msgs 2), 3, [4]) := by
      have h := create_event_attempts_succ backend 1 1
      rw [hf 1] at h
      simp [hA] at h
      simpa using h
    have hC : create_event_attempts backend 0 3 =
        (Except.error (msgs 2), 3, [2, 4]) := by
      have h := create_event_attempts_succ backend 0 2
      rw [hf 0] at h
      simp [hB] at h
      simpa using h
    simp [create_event, hC]
  · intro details backend ev hb
    have hC : create_event_attempts backend 0 3 = (Except.ok ev, 1, []) := by
      have h := create_event_attempts_succ backend 0 2
      rw [hb] at h
      simpa using h
    simp [create_event, hC]
  · intro details backend
    have hle := create_event_attempts_calls_le backend 3 0
    rcases hh : create_event_attempts backend 0 3 with ⟨res, calls, sleeps⟩
    rw [hh] at hle
    simp only [] at hle
    cases res <;> simp [create_event, hh] <;> omega

/-- Witness for C4: a permanently failing backend yields 3 calls, waits
`[2, 4]` and the error response; an always-succeeding backend yields one
call and no waits. -/
theorem c4_retry_policy_bounded_backoff_witness :
    create_event ⟨"t", none, "2025-01-06T10:00:00", "2025-01-06T11:00:00",
        [], "UTC"⟩ (fun _ => Except.error "backend down") =
      ⟨⟨"error", none, none, none, some "backend down"⟩, 3, [2, 4]⟩ ∧
    create_event ⟨"t", none, "2025-01-06T10:00:00", "2025-01-06T11:00:00",
        [], "UTC"⟩ (fun _ => Except.ok ⟨some "L", some "M", some "I"⟩) =
      ⟨⟨"success", some "L", some "M", some "I", none⟩, 1, []⟩ ∧
    (create_event ⟨"t", none, "2025-01-06T10:00:00", "2025-01-06T11:00:00",
        [], "UTC"⟩ (fun _ => Except.error "backend down")).insert_calls ≤ 3 :=
  ⟨c4_retry_policy_bounded_backoff.1 _ _ (fun _ => "backend down")
      (fun _ => rfl),
    c4_retry_policy_bounded_backoff.2.1 _ _ ⟨some "L", some "M", some "I"⟩
      rfl,
    c4_retry_policy_bounded_backoff.2.2 _ _⟩

/-- Counterexample to C3: `create_event` does not validate
`start < end`.  For concrete details with `start_time = end_time` and a
succeeding backend, it does not return a failure without calling the
backend: it performs exactly one backend call and returns the success
response. -/
theorem c3_counterexample_start_eq_end_backend_called :
    (⟨"Kickoff", none, "2025-01-06T10:00:00", "2025-01-06T10:00:00",
        ["a@example.com"], "UTC"⟩ : CalendarEventDetails).start_time =
      (⟨"Kickoff", none, "2025-01-06T10:00:00", "2025-01-06T10:00:00",
        ["a@example.com"], "UTC"⟩ : CalendarEventDetails).end_time ∧
    ¬ ((create_event ⟨"Kickoff", none, "2025-01-06T10:00:00",
          "2025-01-06T10:00:00", ["a@example.com"], "UTC"⟩
          (fun _ => Except.ok ⟨some "L", some "M", some "I"⟩)).response.status
            = "error" ∧
        (create_event ⟨"Kickoff", none, "2025-01-06T10:00:00",
          "2025-01-06T10:00:00", ["a@example.com"], "UTC"⟩
          (fun _ => Except.ok ⟨some "L", some "M", some "I"⟩)).insert_calls
            = 0) ∧
    (create_event ⟨"Kickoff", none, "2025-01-06T10:00:00",
        "2025-01-06T10:00:00", ["a@example.com"], "UTC"⟩
        (fun _ => Except.ok ⟨some "L", some "M", some "I"⟩)).insert_calls
          = 1 ∧
    (create_event ⟨"Kickoff", none, "2025-01-06T10:00:00",
        "2025-01-06T10:00:00", ["a@example.com"], "UTC"⟩
        (fun _ => Except.ok ⟨some "L", some "M", some "I"⟩)).response.status
          = "success" := by decide

/-- C3 amended: `create_event` performs no `start < end` validation — the
pydantic model constrains field shapes only.  For any details with
`start_time = end_time` the retry loop still runs, so at least one
backend call is performed (rather than a validation failure with no
call). -/
theorem c3_amended_no_start_end_validation
    (details : CalendarEventDetails)
    (backend : Nat → Except String EventResource)
    (h : details.start_time = details.end_time) :
    1 ≤ (create_event details backend).insert_calls := by
  have hp := create_event_attempts_calls_pos backend 2 0
  rcases hh : create_event_attempts backend 0 3 with ⟨res, calls, sleeps⟩
  rw [show (2 : Nat) + 1 = 3 from rfl, hh] at hp
  simp only [] at hp
  cases res <;> simp [create_event, hh] <;> omega

/-- Witness for the amended C3: concrete degenerate details and a
succeeding backend. -/
theorem c3_amended_no_start_end_validation_witness :
    (⟨"t", none, "x", "x", [], "UTC"⟩ : CalendarEventDetails).start_time =
      (⟨"t", none, "x", "x", [], "UTC"⟩ : CalendarEventDetails).end_time ∧
    1 ≤ (create_event ⟨"t", none, "x", "x", [], "UTC"⟩
        (fun _ => Except.ok ⟨none, none, none⟩)).insert_calls :=
  ⟨rfl, c3_amended_no_start_end_validation _ _ rfl⟩

theorem generate_slots_naive_aware_empty_busy (fuel : Nat) :
    ∀ t : Int, ∀ end_time duration : Int,
      generate_slots_naive_aware fuel t end_time duration [] =
        Except.ok (generate_slots fuel t end_time duration []) := by
  induction fuel with
  | zero => intro t end_time duration; rfl
  | succ fuel ih =>
    intro t end_time duration
    rw [generate_slots_naive_aware, generate_slots]
    split
    · rw [ih (t + 15)]
      simp [slot_is_free, Except.map]
    · rfl

theorem available_slots_list_naive_aware_empty_busy
    (now duration days_ahead : Int) :
    available_slots_list_naive_aware now duration days_ahead [] =
      Except.ok (available_slots_list now duration days_ahead []) := by
  rw [available_slots_list_naive_aware, available_slots_list]
  suffices h : ∀ (l : List Nat) (init : List TimeSlot),
      l.foldl
        (fun acc (day : Nat) =>
          acc.bind fun slots =>
            (day_slots_naive_aware (now.fdiv 1440 + day) duration []).map
              fun ds => slots ++ ds)
        (Except.ok init) =
      Except.ok
        (init ++ l.flatMap fun day =>
          day_slots (now.fdiv 1440 + day) duration []) by
    simpa using h (List.range days_ahead.toNat) []
  intro l
  induction l with
  | nil => intro init; simp
  | cons d l ih =>
    intro init
    have hd : day_slots_naive_aware (now.fdiv 1440 + d) duration [] =
        Except.ok (day_slots (now.fdiv 1440 + d) duration []) := by
      rw [day_slots_naive_aware, day_slots]
      split
      · rfl
      · exact generate_slots_naive_aware_empty_busy _ _ _ _
    have hstep : ((Except.ok init).bind fun slots =>
        (day_slots_naive_aware (now.fdiv 1440 + d) duration []).map
          fun ds => slots ++ ds) =
        Except.ok (init ++ day_slots (now.fdiv 1440 + d) duration []) := by
      rw [hd]; rfl
    simp only [List.foldl_cons, List.flatMap_cons]
    rw [hstep, ih, List.append_assoc]

theorem find_available_slots_run_empty_busy (now duration days_ahead : Int) :
    find_available_slots_run now duration days_ahead [] =
      find_available_slots now duration days_ahead (Except.ok []) := by
  rw [find_available_slots, find_available_slots_ok, find_available_slots_run,
    available_slots_list_naive_aware_empty_busy]
  cases available_slots_list now duration days_ahead [] <;> rfl

/-- C1 (code bug): the source intends the half-open overlap filter
(src/agents.py:144-163, spec 4.1), but mixes naive slot datetimes with
timezone-aware busy datetimes, so the filter never executes.  At the
failing input — 1970-01-01 00:00 UTC (a Thursday), 60-minute duration,
one day ahead, the single busy interval `[11:00, 12:00)` — the faithful
run raises `TypeError` at the first comparison and returns the error
dict with zero candidates, while the intended scan returns the model
object with the 18 non-overlapping candidates starting at
`[10:00, 11:00)`.  (On an empty busy set, where the comparison is never
reached, the two embeddings agree: see
`find_available_slots_run_empty_busy`.) -/
theorem c1_code_bug_naive_aware_comparison_raises :
    find_available_slots_run 0 60 1 [(660, 720)] =
      SlotsReturn.dict ⟨[], none,
        "Error finding slots: can't compare offset-naive and offset-aware datetimes"⟩ ∧
    ((find_available_slots 0 60 1
        (Except.ok [(660, 720)])).payload).available_slots.length = 18 ∧
    ((find_available_slots 0 60 1
        (Except.ok [(660, 720)])).payload).available_slots.head? =
      some ⟨600, 660⟩ ∧
    find_available_slots_run 0 60 1 [(660, 720)] ≠
      find_available_slots 0 60 1 (Except.ok [(660, 720)]) := by decide
